import Mathlib

/-!
Verification of the financial-data module (`src/financial_data.py`).

The module converts per-year percentage rates into compounded growth-factor
series `{dates, values}` anchored at 1.0, with static-table fallbacks when a
live provider fails.  Machine floats are modelled by exact rationals (the spec
scopes out numerical-stability concerns beyond ordinary rounding); external
fetches are modelled by an `Option`-valued input, `none` standing for a fetch
that raised.
-/

namespace FinSim

/-- Output shape of every facade: a dict with `dates` and `values`
(`financial_data.py` lines 59-62, 130-133, 166-169, 232-235). -/
structure GrowthSeries where
  dates : List Int
  values : List ℚ
  deriving Repr, DecidableEq

/-- Python `round(v, 4)`: round to 4 decimal places. -/
def round4 (x : ℚ) : ℚ := ((round (x * 10000) : ℤ) : ℚ) / 10000

/-- Final rounding pass `[round(v, 4) for v in compounded_values]`
(lines 57, 128, 164, 230). -/
def roundValues (vs : List ℚ) : List ℚ := vs.map round4

/-- The compounding loop (lines 52-54, 123-125, 160-162, 225-227):
`compounded = [1.0]; for r in rates: compounded.append(compounded[-1] * (1 + r/100))`. -/
def compoundedValues (rates : List ℚ) : List ℚ :=
  List.scanl (fun acc r => acc * (1 + r / 100)) 1 rates

/-- Shared output assembly: compound, round, and prepend the synthetic anchor
year `dates[0] - 1`; on an empty year list the dates come out empty
(`[dates[0] - 1] + dates if dates else []`, lines 167 and 233). -/
def compoundEngine (yearsList : List Int) (rates : List ℚ) : GrowthSeries :=
  { dates := match yearsList with
      | [] => []
      | y :: _ => (y - 1) :: yearsList
    values := roundValues (compoundedValues rates) }

/-- Static fallback inflation table (lines 144-150). -/
def historical_inflation : List (Int × ℚ) :=
  [(2024, 3.4), (2023, 4.1), (2022, 8.0), (2021, 4.7), (2020, 1.2),
   (2019, 1.8), (2018, 2.4), (2017, 2.1), (2016, 1.3), (2015, 0.1),
   (2014, 1.6), (2013, 1.5), (2012, 2.1), (2011, 3.2), (2010, 1.6),
   (2009, -0.4), (2008, 3.8), (2007, 2.8), (2006, 3.2), (2005, 3.4),
   (2004, 2.7), (2003, 2.3), (2002, 1.6), (2001, 2.8), (2000, 3.4)]

/-- Static fallback stock-return table (lines 191-214). -/
def sample_returns : List (Int × ℚ) :=
  [(2024, 24.2), (2023, 26.3), (2022, -18.1), (2021, 28.7), (2020, 18.4),
   (2019, 31.5), (2018, -4.4), (2017, 21.8), (2016, 12.0), (2015, 1.4),
   (2014, 13.7), (2013, 32.4), (2012, 16.0), (2011, 2.1), (2010, 15.1),
   (2009, 26.5), (2008, -37.0), (2007, 5.5), (2006, 15.8), (2005, 4.9),
   (2004, 10.9), (2003, 28.7)]

/-- Python dict membership / lookup on the static tables. -/
def tableLookup (tbl : List (Int × ℚ)) (y : Int) : Option ℚ :=
  (tbl.find? (fun p => p.1 == y)).map Prod.snd

/-- Python `range(start, stop)` over integers. -/
def pyRange (start stop : Int) : List Int :=
  (List.range (stop - start).toNat).map (fun (i : ℕ) => start + (i : Int))

/-- The fallback selection loop (lines 155-158, 219-222):
`for year in range(start_year, current_year + 1): if year in table: collect`. -/
def selectFromTable (tbl : List (Int × ℚ)) (startYear currentYear : Int) :
    List (Int × ℚ) :=
  (pyRange startYear (currentYear + 1)).filterMap
    (fun y => (tableLookup tbl y).map (fun r => (y, r)))

/-- Python `get_fallback_inflation_data` (lines 139-169), with `datetime.now().year`
made an explicit `current_year` argument. -/
def get_fallback_inflation_data (years : ℕ) (current_year : Int) : GrowthSeries :=
  let sel := selectFromTable historical_inflation (current_year - (years : Int)) current_year
  compoundEngine (sel.map Prod.fst) (sel.map Prod.snd)

/-- Python `get_sample_stock_data` (lines 186-235), with `datetime.now().year`
made an explicit `current_year` argument. -/
def get_sample_stock_data (years : ℕ) (current_year : Int) : GrowthSeries :=
  let sel := selectFromTable sample_returns (current_year - (years : Int)) current_year
  compoundEngine (sel.map Prod.fst) (sel.map Prod.snd)

/-- Pandas `groupby` group keys: the distinct years, ascending (pandas sorts
group keys). An observation is a `(year, value)` pair. -/
def groupYears (hist : List (Int × ℚ)) : List Int :=
  List.insertionSort (· ≤ ·) ((hist.map Prod.fst).dedup)

/-- Equity annual aggregation (lines 36-49): per year, take the first and last
observation of that year in input order and return `((last - first) / first) * 100`. -/
def annualAgg (hist : List (Int × ℚ)) : List (Int × ℚ) :=
  (groupYears hist).filterMap (fun y =>
    let grp := hist.filter (fun p => p.1 == y)
    match grp.head?, grp.getLast? with
    | some f, some l => some (y, (l.2 - f.2) / f.2 * 100)
    | _, _ => none)

/-- The try-block of `get_stock_returns` after the fetch (lines 36-62):
aggregate, compound, assemble.  On empty data, `years_list[0]` raises
IndexError, modelled as `none` (it is caught at the facade). -/
def liveStockSeries (hist : List (Int × ℚ)) : Option GrowthSeries :=
  let ann := annualAgg hist
  if ann.map Prod.fst = [] then none
  else some (compoundEngine (ann.map Prod.fst) (ann.map Prod.snd))

/-- Python `get_stock_returns` (lines 16-66): any error raised in the try-block
(fetch failure = `fetched = none`, or IndexError inside the LIVE path) is
caught and answered with `get_sample_stock_data`. -/
def get_stock_returns (fetched : Option (List (Int × ℚ))) (years : ℕ)
    (current_year : Int) : GrowthSeries :=
  match fetched.bind liveStockSeries with
  | some g => g
  | none => get_sample_stock_data years current_year

/-- Python `get_sp500_returns` (lines 69-71). -/
def get_sp500_returns (fetched : Option (List (Int × ℚ))) (years : ℕ)
    (current_year : Int) : GrowthSeries :=
  get_stock_returns fetched years current_year

/-- Python `get_us_total_market_returns` (lines 74-76). -/
def get_us_total_market_returns (fetched : Option (List (Int × ℚ))) (years : ℕ)
    (current_year : Int) : GrowthSeries :=
  get_stock_returns fetched years current_year

/-- Python `get_global_market_returns` (lines 79-81). -/
def get_global_market_returns (fetched : Option (List (Int × ℚ))) (years : ℕ)
    (current_year : Int) : GrowthSeries :=
  get_stock_returns fetched years current_year

/-- Annual mean CPI per year (line 107): `cpi_data.groupby(year).mean()`. -/
def annualMeans (cpi : List (Int × ℚ)) : List (Int × ℚ) :=
  (groupYears cpi).map (fun y =>
    let g := (cpi.filter (fun p => p.1 == y)).map Prod.snd
    (y, g.sum / (g.length : ℚ)))

/-- The YoY loop (lines 113-120): for each index i from 1 on, pair the means of
consecutive years and emit `rate = (curr - prev) / prev * 100`, keyed by the
current year. -/
def yoyRates : List (Int × ℚ) → List (Int × ℚ)
  | [] => []
  | [_] => []
  | prev :: curr :: rest =>
      (curr.1, (curr.2 - prev.2) / prev.2 * 100) :: yoyRates (curr :: rest)

/-- The try-block of `get_inflation_data_from_fred` after the fetch
(lines 100-133). On an empty rate list, `years_list[0]` raises IndexError,
modelled as `none`. -/
def liveInflationSeries (cpi : List (Int × ℚ)) : Option GrowthSeries :=
  let yoy := yoyRates (annualMeans cpi)
  if yoy.map Prod.fst = [] then none
  else some (compoundEngine (yoy.map Prod.fst) (yoy.map Prod.snd))

/-- Python `get_inflation_data_from_fred` (lines 84-136). `hasKey` models whether the
module-level `fred` client exists (`FRED_API_KEY` set, lines 12-13): without it
the function returns the fallback before attempting any fetch. -/
def get_inflation_data_from_fred (hasKey : Bool)
    (fetched : Option (List (Int × ℚ))) (years : ℕ) (current_year : Int) :
    GrowthSeries :=
  if hasKey then
    match fetched.bind liveInflationSeries with
    | some g => g
    | none => get_fallback_inflation_data years current_year
  else get_fallback_inflation_data years current_year

/-- Python `get_inflation_data` (lines 172-183): delegates to the FRED facade. -/
def get_inflation_data (hasKey : Bool) (fetched : Option (List (Int × ℚ)))
    (years : ℕ) (current_year : Int) : GrowthSeries :=
  get_inflation_data_from_fred hasKey fetched years current_year

/-- Stock fetch window (line 30): `timedelta(days = years * 365)`. -/
def stockFetchWindowDays (years : ℕ) : ℕ := years * 365

/-- Inflation fetch window (line 101): `timedelta(days = years * 365 + 365)`,
the comment reading "Extra year for calculation". -/
def inflationFetchWindowDays (years : ℕ) : ℕ := years * 365 + 365

/-- Modelled from the spec: the per-step-rounded chain that section 8 of the
spec rejects ("not a chain of pre-rounded intermediate multiplications"),
defined here only as a contrast for the rounding-policy theorem. -/
def perStepRoundedChain (rates : List ℚ) : List ℚ :=
  List.scanl (fun acc r => round4 (acc * (1 + r / 100))) 1 rates

/-- The output-shape invariant as it actually holds of the code: `values` is
never empty and starts at 1; whenever `dates` is non-empty the two lists have
equal length and the anchor year is one less than the first data year. -/
def seriesInvariant (g : GrowthSeries) : Prop :=
  g.values ≠ [] ∧ g.values.head? = some 1 ∧
    (g.dates ≠ [] →
      g.dates.length = g.values.length ∧
      g.dates.head? = g.dates.tail.head?.map (fun d => d - 1))

theorem compoundedValues_length (rates : List ℚ) :
    (compoundedValues rates).length = rates.length + 1 :=
  List.length_scanl 1 rates

theorem compoundedValues_head (rates : List ℚ) :
    ∃ rest, compoundedValues rates = 1 :: rest := by
  cases rates with
  | nil => exact ⟨[], rfl⟩
  | cons a l => exact ⟨_, rfl⟩

theorem compoundEngine_values_length (ys : List Int) (rates : List ℚ) :
    (compoundEngine ys rates).values.length = rates.length + 1 := by
  show (roundValues (compoundedValues rates)).length = rates.length + 1
  rw [roundValues, List.length_map, compoundedValues_length]

theorem round4_eval {x : ℚ} {n : ℤ} (h1 : (n : ℚ) ≤ x * 10000 + 1 / 2)
    (h2 : x * 10000 + 1 / 2 < n + 1) : round4 x = (n : ℚ) / 10000 := by
  unfold round4
  rw [round_eq, Int.floor_eq_iff.mpr ⟨h1, h2⟩]

theorem round4_one : round4 1 = 1 := by
  rw [round4_eval (n := 10000) (by norm_num) (by norm_num)]
  norm_num

theorem scanl_get_take {α β : Type*} (f : β → α → β) (b : β) (l : List α) (i : ℕ)
    (h : i < (List.scanl f b l).length) :
    (List.scanl f b l).get ⟨i, h⟩ = (l.take i).foldl f b := by
  induction l generalizing b i with
  | nil =>
    have h0 : i = 0 := by
      simp only [List.scanl_nil, List.length_cons, List.length_nil] at h
      omega
    subst h0
    rfl
  | cons a l ih =>
    cases i with
    | zero => rfl
    | succ i =>
      have h2 : i < (List.scanl f (f b a) l).length := by
        simp only [List.scanl_cons, List.singleton_append, List.length_cons] at h
        omega
      have e : (List.scanl f b (a :: l)).get ⟨i + 1, h⟩ =
          (List.scanl f (f b a) l).get ⟨i, h2⟩ := rfl
      rw [e, ih]
      rfl

theorem mem_pyRange {s t y : Int} : y ∈ pyRange s t ↔ s ≤ y ∧ y < t := by
  simp only [pyRange, List.mem_map, List.mem_range]
  constructor
  · rintro ⟨i, hi, rfl⟩
    omega
  · intro h
    exact ⟨(y - s).toNat, by omega, by omega⟩

theorem pyRange_pairwise (s t : Int) : (pyRange s t).Pairwise (· < ·) := by
  refine List.pairwise_map.mpr ?_
  exact (List.pairwise_lt_range _).imp (fun h => by omega)

theorem mem_selectFromTable {tbl : List (Int × ℚ)} {s c y : Int} {r : ℚ} :
    (y, r) ∈ selectFromTable tbl s c ↔
      s ≤ y ∧ y ≤ c ∧ tableLookup tbl y = some r := by
  simp only [selectFromTable, List.mem_filterMap, Option.map_eq_some', mem_pyRange]
  constructor
  · rintro ⟨a, ha, v, hv, heq⟩
    injection heq with ha1 ha2
    subst ha1
    subst ha2
    exact ⟨ha.1, by omega, hv⟩
  · rintro ⟨h1, h2, h3⟩
    exact ⟨y, ⟨h1, by omega⟩, r, h3, rfl⟩

theorem map_fst_filterMap_lookup (g : Int → Option ℚ) (l : List Int) :
    (l.filterMap (fun y => (g y).map (fun r => (y, r)))).map Prod.fst =
      l.filter (fun y => (g y).isSome) := by
  induction l with
  | nil => rfl
  | cons a l ih =>
    cases hg : g a with
    | none => simp [List.filterMap_cons, hg, ih, List.filter_cons]
    | some v => simp [List.filterMap_cons, hg, ih, List.filter_cons]

theorem selectFromTable_fst_pairwise (tbl : List (Int × ℚ)) (s c : Int) :
    ((selectFromTable tbl s c).map Prod.fst).Pairwise (· < ·) := by
  rw [selectFromTable, map_fst_filterMap_lookup]
  exact (pyRange_pairwise s (c + 1)).filter _

theorem compoundEngine_invariant (ys : List Int) (rates : List ℚ)
    (hlen : ys.length = rates.length) : seriesInvariant (compoundEngine ys rates) := by
  obtain ⟨rest, hv⟩ := compoundedValues_head rates
  refine ⟨?_, ?_, ?_⟩
  · show roundValues (compoundedValues rates) ≠ []
    rw [hv, roundValues]
    simp
  · show (roundValues (compoundedValues rates)).head? = some 1
    rw [hv, roundValues]
    simp [round4_one]
  · intro hd
    cases ys with
    | nil => exact absurd rfl hd
    | cons y ytail =>
      have hdates : (compoundEngine (y :: ytail) rates).dates = (y - 1) :: y :: ytail := rfl
      constructor
      · rw [hdates, compoundEngine_values_length]
        simp only [List.length_cons] at hlen ⊢
        omega
      · rw [hdates]
        rfl

theorem yoyRates_length (ms : List (Int × ℚ)) :
    (yoyRates ms).length = ms.length - 1 := by
  induction ms with
  | nil => rfl
  | cons a tail ih =>
    cases tail with
    | nil => rfl
    | cons b rest =>
      simp only [yoyRates, List.length_cons] at ih ⊢
      omega

theorem yoyRates_get (ms : List (Int × ℚ)) (i : ℕ) (hi : i + 1 < ms.length)
    (h : i < (yoyRates ms).length) :
    (yoyRates ms).get ⟨i, h⟩ =
      ((ms.get ⟨i + 1, hi⟩).1,
        ((ms.get ⟨i + 1, hi⟩).2 - (ms.get ⟨i, Nat.lt_of_succ_lt hi⟩).2) /
          (ms.get ⟨i, Nat.lt_of_succ_lt hi⟩).2 * 100) := by
  induction ms generalizing i with
  | nil =>
    simp only [List.length_nil] at hi
    omega
  | cons a tail ih =>
    cases tail with
    | nil =>
      simp only [List.length_cons, List.length_nil] at hi
      omega
    | cons b rest =>
      cases i with
      | zero => rfl
      | succ i =>
        have hi2 : i + 1 < (b :: rest).length := by
          simp only [List.length_cons] at hi ⊢
          omega
        have h2 : i < (yoyRates (b :: rest)).length := by
          simp only [yoyRates, List.length_cons] at h
          omega
        have e : (yoyRates (a :: b :: rest)).get ⟨i + 1, h⟩ =
            (yoyRates (b :: rest)).get ⟨i, h2⟩ := rfl
        rw [e, ih i hi2 h2]
        rfl

theorem liveStockSeries_eq_some {hist : List (Int × ℚ)} {g : GrowthSeries}
    (h : liveStockSeries hist = some g) :
    g = compoundEngine ((annualAgg hist).map Prod.fst) ((annualAgg hist).map Prod.snd) := by
  by_cases hc : (annualAgg hist).map Prod.fst = []
  · simp only [liveStockSeries, if_pos hc] at h
    exact absurd h (by simp)
  · simp only [liveStockSeries, if_neg hc] at h
    injection h with h1
    exact h1.symm

theorem liveInflationSeries_eq_some {cpi : List (Int × ℚ)} {g : GrowthSeries}
    (h : liveInflationSeries cpi = some g) :
    g = compoundEngine ((yoyRates (annualMeans cpi)).map Prod.fst)
      ((yoyRates (annualMeans cpi)).map Prod.snd) := by
  by_cases hc : (yoyRates (annualMeans cpi)).map Prod.fst = []
  · simp only [liveInflationSeries, if_pos hc] at h
    exact absurd h (by simp)
  · simp only [liveInflationSeries, if_neg hc] at h
    injection h with h1
    exact h1.symm

theorem get_stock_returns_cases (fetched : Option (List (Int × ℚ))) (years : ℕ)
    (cy : Int) :
    (∃ g, fetched.bind liveStockSeries = some g ∧
        get_stock_returns fetched years cy = g) ∨
      (fetched.bind liveStockSeries = none ∧
        get_stock_returns fetched years cy = get_sample_stock_data years cy) := by
  cases hb : fetched.bind liveStockSeries with
  | none => exact Or.inr ⟨rfl, by simp [get_stock_returns, hb]⟩
  | some g => exact Or.inl ⟨g, rfl, by simp [get_stock_returns, hb]⟩

/-- C1: every facade call returns a `{dates, values}` GrowthSeries that is
either the LIVE-path series or the static-table fallback series; any error in
the LIVE path (a failed fetch, modelled `fetched = none`, or an error inside
aggregation/assembly, modelled `liveStockSeries hist = none` resp.
`liveInflationSeries cpi = none`) is caught at the facade boundary and answered
by executing the static-table fallback, never surfaced to the caller. -/
theorem facade_live_errors_fall_back (fetched cpiFetched : Option (List (Int × ℚ)))
    (hasKey : Bool) (years : ℕ) (cy : Int) :
    (fetched = none →
      get_sp500_returns fetched years cy = get_sample_stock_data years cy ∧
      get_us_total_market_returns fetched years cy = get_sample_stock_data years cy ∧
      get_global_market_returns fetched years cy = get_sample_stock_data years cy) ∧
    (∀ hist, fetched = some hist → liveStockSeries hist = none →
      get_stock_returns fetched years cy = get_sample_stock_data years cy) ∧
    ((∃ g, fetched.bind liveStockSeries = some g ∧
        get_stock_returns fetched years cy = g) ∨
      get_stock_returns fetched years cy = get_sample_stock_data years cy) ∧
    (hasKey = true → cpiFetched = none →
      get_inflation_data_from_fred hasKey cpiFetched years cy =
        get_fallback_inflation_data years cy) ∧
    (∀ cpi, cpiFetched = some cpi → liveInflationSeries cpi = none →
      get_inflation_data_from_fred hasKey cpiFetched years cy =
        get_fallback_inflation_data years cy) ∧
    ((∃ g, cpiFetched.bind liveInflationSeries = some g ∧
        get_inflation_data_from_fred hasKey cpiFetched years cy = g) ∨
      get_inflation_data_from_fred hasKey cpiFetched years cy =
        get_fallback_inflation_data years cy) := by
  refine ⟨?_, ?_, ?_, ?_, ?_, ?_⟩
  · rintro rfl
    exact ⟨rfl, rfl, rfl⟩
  · rintro hist rfl hl
    simp [get_stock_returns, hl]
  · rcases get_stock_returns_cases fetched years cy with h | h
    · exact Or.inl h
    · exact Or.inr h.2
  · rintro rfl rfl
    rfl
  · rintro cpi rfl hl
    cases hasKey with
    | false => rfl
    | true => simp [get_inflation_data_from_fred, hl]
  · cases hasKey with
    | false => exact Or.inr rfl
    | true =>
      cases hb : cpiFetched.bind liveInflationSeries with
      | none => exact Or.inr (by simp [get_inflation_data_from_fred, hb])
      | some g => exact Or.inl ⟨g, rfl, by simp [get_inflation_data_from_fred, hb]⟩

/-- Witness for C1 at concrete inputs: a failed fetch and an empty fetched
series both produce exactly the fallback output, for stocks and inflation. -/
theorem facade_live_errors_fall_back_witness :
    get_sp500_returns none 0 2025 = get_sample_stock_data 0 2025 ∧
    get_stock_returns (some []) 0 2025 = get_sample_stock_data 0 2025 ∧
    get_inflation_data_from_fred true none 0 2025 = get_fallback_inflation_data 0 2025 ∧
    get_inflation_data_from_fred true (some []) 0 2025 =
      get_fallback_inflation_data 0 2025 := by
  refine ⟨((facade_live_errors_fall_back none none true 0 2025).1 rfl).1, ?_, ?_, ?_⟩
  · exact (facade_live_errors_fall_back (some []) none true 0 2025).2.1 [] rfl rfl
  · exact (facade_live_errors_fall_back none none true 0 2025).2.2.2.1 rfl rfl
  · exact (facade_live_errors_fall_back none (some []) true 0 2025).2.2.2.2.1 [] rfl rfl

/-- C4 counterexample: with a horizon that overlaps no table year
(years = 0 in year 2025, whose tables stop at 2024) the fallback returns
`dates = []` but `values = [1.0]`, not the claimed pair of empty lists. -/
theorem empty_selection_cex :
    (get_fallback_inflation_data 0 2025).dates = [] ∧
    (get_fallback_inflation_data 0 2025).values = [1] ∧
    (get_fallback_inflation_data 0 2025).values ≠ [] := by
  refine ⟨rfl, ?_, ?_⟩
  · show [round4 1] = [1]
    rw [round4_one]
  · show [round4 1] ≠ []
    simp

/-- C4 as amended: an empty rate selection yields `dates = []` together with
`values = [1.0]` (the anchor value alone survives), in the engine and in both
fallback functions. -/
theorem empty_selection_amended (years : ℕ) (cy : Int)
    (h1 : selectFromTable historical_inflation (cy - (years : Int)) cy = [])
    (h2 : selectFromTable sample_returns (cy - (years : Int)) cy = []) :
    compoundEngine [] [] = { dates := [], values := [1] } ∧
    (get_fallback_inflation_data years cy).dates = [] ∧
    (get_fallback_inflation_data years cy).values = [1] ∧
    (get_sample_stock_data years cy).dates = [] ∧
    (get_sample_stock_data years cy).values = [1] := by
  have e3 : compoundEngine ([] : List Int) ([] : List ℚ) = { dates := [], values := [1] } := by
    show GrowthSeries.mk [] [round4 1] = GrowthSeries.mk [] [1]
    rw [round4_one]
  have e1 : get_fallback_inflation_data years cy = compoundEngine [] [] := by
    simp only [get_fallback_inflation_data, h1, List.map_nil]
  have e2 : get_sample_stock_data years cy = compoundEngine [] [] := by
    simp only [get_sample_stock_data, h2, List.map_nil]
  exact ⟨e3, by rw [e1, e3], by rw [e1, e3], by rw [e2, e3], by rw [e2, e3]⟩

/-- Witness for C4 as amended, at years = 0 in year 2025. -/
theorem empty_selection_amended_witness :
    (get_fallback_inflation_data 0 2025).values = [1] ∧
    (get_sample_stock_data 0 2025).values = [1] := by
  have h := empty_selection_amended 0 2025 rfl rfl
  exact ⟨h.2.2.1, h.2.2.2.2⟩

/-- C5 counterexample: in the degenerate no-overlap case the returned series
has `dates = []` but `values = [1.0]`, so the two lists differ in length. -/
theorem series_invariant_cex :
    (get_sample_stock_data 0 2025).dates.length ≠
      (get_sample_stock_data 0 2025).values.length := by
  show ([] : List Int).length ≠ [round4 1].length
  simp

/-- C5 as amended: every series returned by a facade or fallback function has
non-empty `values` starting at 1.0, and whenever `dates` is non-empty the two
lists have equal length and the anchor year is one less than the first data
year; in the degenerate no-overlap case `dates = []` while `values = [1.0]`. -/
theorem series_invariant_amended (fetched cpiFetched : Option (List (Int × ℚ)))
    (hasKey : Bool) (years : ℕ) (cy : Int) :
    seriesInvariant (get_stock_returns fetched years cy) ∧
    seriesInvariant (get_sp500_returns fetched years cy) ∧
    seriesInvariant (get_us_total_market_returns fetched years cy) ∧
    seriesInvariant (get_global_market_returns fetched years cy) ∧
    seriesInvariant (get_inflation_data_from_fred hasKey cpiFetched years cy) ∧
    seriesInvariant (get_inflation_data hasKey cpiFetched years cy) ∧
    seriesInvariant (get_fallback_inflation_data years cy) ∧
    seriesInvariant (get_sample_stock_data years cy) := by
  have hfb : seriesInvariant (get_fallback_inflation_data years cy) :=
    compoundEngine_invariant _ _ (by simp)
  have hsample : seriesInvariant (get_sample_stock_data years cy) :=
    compoundEngine_invariant _ _ (by simp)
  have hstock : seriesInvariant (get_stock_returns fetched years cy) := by
    rcases get_stock_returns_cases fetched years cy with ⟨g, hg, he⟩ | ⟨-, he⟩
    · rw [he]
      cases fetched with
      | none => exact absurd hg (by simp)
      | some hist =>
        rw [Option.some_bind] at hg
        rw [liveStockSeries_eq_some hg]
        exact compoundEngine_invariant _ _ (by simp)
    · rw [he]
      exact hsample
  have hinfl : seriesInvariant (get_inflation_data_from_fred hasKey cpiFetched years cy) := by
    cases hasKey with
    | false => exact hfb
    | true =>
      cases hb : cpiFetched.bind liveInflationSeries with
      | none =>
        have he : get_inflation_data_from_fred true cpiFetched years cy =
            get_fallback_inflation_data years cy := by
          simp [get_inflation_data_from_fred, hb]
        rw [he]
        exact hfb
      | some g =>
        have he : get_inflation_data_from_fred true cpiFetched years cy = g := by
          simp [get_inflation_data_from_fred, hb]
        rw [he]
        cases cpiFetched with
        | none => exact absurd hb (by simp)
        | some cpi =>
          rw [Option.some_bind] at hb
          rw [liveInflationSeries_eq_some hb]
          exact compoundEngine_invariant _ _ (by simp)
  exact ⟨hstock, hstock, hstock, hstock, hinfl, hinfl, hfb, hsample⟩

/-- Witness for C5 as amended, at concrete inputs. -/
theorem series_invariant_amended_witness :
    seriesInvariant (get_sample_stock_data 0 2025) ∧
    seriesInvariant (get_sample_stock_data 5 2024) :=
  ⟨(series_invariant_amended none none false 0 2025).2.2.2.2.2.2.2,
   (series_invariant_amended none none false 5 2024).2.2.2.2.2.2.2⟩

/-- C2: the Compounding Engine turns N rates into N+1 values with
`values[0] = 1.0` and `values[i] = values[i-1] * (1 + rates[i-1]/100)`, and
its dates are the anchor `firstYear - 1` followed by the rate years; in
particular rates = [10.0] with first year 2020 gives dates = [2019, 2020] and
values = [1.0, 1.1]. -/
theorem compounding_engine_contract (rates : List ℚ) (y0 : Int) (ys : List Int)
    (hne : rates ≠ []) :
    (compoundedValues rates).length = rates.length + 1 ∧
    (compoundedValues rates).head? = some 1 ∧
    (∀ i (hi : i + 1 < (compoundedValues rates).length),
      (compoundedValues rates).get ⟨i + 1, hi⟩ =
        (compoundedValues rates).get ⟨i, Nat.lt_of_succ_lt hi⟩ *
          (1 + rates.get ⟨i, by rw [compoundedValues_length] at hi; omega⟩ / 100)) ∧
    (compoundEngine (y0 :: ys) rates).dates = (y0 - 1) :: y0 :: ys ∧
    compoundEngine [2020] [10] = { dates := [2019, 2020], values := [1, 1.1] } := by
  refine ⟨compoundedValues_length rates, ?_, ?_, rfl, ?_⟩
  · obtain ⟨rest, h⟩ := compoundedValues_head rates
    rw [h]
    rfl
  · intro i hi
    simp only [List.get_eq_getElem]
    exact List.getElem_succ_scanl hi
  · have h1 : round4 ((1 : ℚ) * (1 + 10 / 100)) = 1.1 := by
      rw [round4_eval (n := 11000) (by norm_num) (by norm_num)]
      norm_num
    show GrowthSeries.mk [2019, 2020] [round4 1, round4 (1 * (1 + 10 / 100))] =
      GrowthSeries.mk [2019, 2020] [1, 1.1]
    rw [round4_one, h1]

/-- Witness for C2 at rates = [10.0], first year 2020. -/
theorem compounding_engine_contract_witness :
    (compoundedValues [(10 : ℚ)]).length = 2 ∧
    compoundEngine [2020] [10] = { dates := [2019, 2020], values := [1, 1.1] } :=
  ⟨(compounding_engine_contract [10] 2020 [] (by simp)).1,
   (compounding_engine_contract [10] 2020 [] (by simp)).2.2.2.2⟩

/-- C3: every output value is the 4-decimal rounding of the exact cumulative
product of the unrounded factors (rounding is one final pass), and this
differs from a per-step-rounded chain: at rates [0.006, 0.006] the final pass
gives 1.0001 where per-step rounding would give 1.0002. -/
theorem rounding_applied_once (yearsList : List Int) (rates : List ℚ) (i : ℕ)
    (hi : i < (compoundEngine yearsList rates).values.length) :
    (compoundEngine yearsList rates).values.get ⟨i, hi⟩ =
      round4 ((rates.take i).foldl (fun acc r => acc * (1 + r / 100)) 1) ∧
    roundValues (compoundedValues [0.006, 0.006]) ≠
      perStepRoundedChain [0.006, 0.006] := by
  constructor
  · have hi2 : i < (List.scanl (fun acc r => acc * (1 + r / 100)) 1 rates).length := by
      rw [compoundEngine_values_length] at hi
      rw [List.length_scanl]
      omega
    have e : (compoundEngine yearsList rates).values.get ⟨i, hi⟩ =
        round4 ((List.scanl (fun acc r => acc * (1 + r / 100)) 1 rates).get ⟨i, hi2⟩) := by
      simp only [List.get_eq_getElem]
      show (List.map round4 (List.scanl (fun acc r => acc * (1 + r / 100)) 1 rates))[i] = _
      simp only [List.getElem_map]
    rw [e, scanl_get_take]
  · have e2 : round4 ((1 : ℚ) * (1 + 0.006 / 100)) = 10001 / 10000 := by
      rw [round4_eval (n := 10001) (by norm_num) (by norm_num)]
      norm_num
    have e3 : round4 ((1 : ℚ) * (1 + 0.006 / 100) * (1 + 0.006 / 100)) = 10001 / 10000 := by
      rw [round4_eval (n := 10001) (by norm_num) (by norm_num)]
      norm_num
    have e4 : round4 ((10001 / 10000 : ℚ) * (1 + 0.006 / 100)) = 10002 / 10000 := by
      rw [round4_eval (n := 10002) (by norm_num) (by norm_num)]
      norm_num
    intro h
    have h2 : [round4 (1 : ℚ), round4 ((1 : ℚ) * (1 + 0.006 / 100)),
          round4 ((1 : ℚ) * (1 + 0.006 / 100) * (1 + 0.006 / 100))] =
        [(1 : ℚ), round4 ((1 : ℚ) * (1 + 0.006 / 100)),
          round4 (round4 ((1 : ℚ) * (1 + 0.006 / 100)) * (1 + 0.006 / 100))] := h
    rw [round4_one, e2, e3, e4] at h2
    norm_num at h2

/-- Witness for C3 at the engine output for rates = [10.0]. -/
theorem rounding_applied_once_witness :
    (compoundEngine [2020] [(10 : ℚ)]).values.get
        ⟨1, by rw [compoundEngine_values_length]; norm_num⟩ =
      round4 (((([(10 : ℚ)])).take 1).foldl (fun acc r => acc * (1 + r / 100)) 1) :=
  (rounding_applied_once [2020] [10] 1
    (by rw [compoundEngine_values_length]; norm_num)).1

/-- C6: the fallback path selects exactly the years in the closed interval
[current_year - years, current_year] that are keys of the static table, in
ascending order, and feeds the corresponding rates through the Compounding
Engine; years = 5 with current_year = 2024 selects 2019..2024 from the stock
table (all covered), giving dates [2018, 2019, 2020, 2021, 2022, 2023, 2024]
with the anchor. -/
theorem fallback_table_filtering :
    (∀ (years : ℕ) (cy y : Int) (r : ℚ),
      (y, r) ∈ selectFromTable sample_returns (cy - (years : Int)) cy ↔
        cy - (years : Int) ≤ y ∧ y ≤ cy ∧ tableLookup sample_returns y = some r) ∧
    (∀ (years : ℕ) (cy y : Int) (r : ℚ),
      (y, r) ∈ selectFromTable historical_inflation (cy - (years : Int)) cy ↔
        cy - (years : Int) ≤ y ∧ y ≤ cy ∧
          tableLookup historical_inflation y = some r) ∧
    (∀ (years : ℕ) (cy : Int),
      ((selectFromTable sample_returns (cy - (years : Int)) cy).map
        Prod.fst).Pairwise (· < ·) ∧
      ((selectFromTable historical_inflation (cy - (years : Int)) cy).map
        Prod.fst).Pairwise (· < ·)) ∧
    (∀ (years : ℕ) (cy : Int),
      get_sample_stock_data years cy =
        compoundEngine
          ((selectFromTable sample_returns (cy - (years : Int)) cy).map Prod.fst)
          ((selectFromTable sample_returns (cy - (years : Int)) cy).map Prod.snd) ∧
      get_fallback_inflation_data years cy =
        compoundEngine
          ((selectFromTable historical_inflation (cy - (years : Int)) cy).map Prod.fst)
          ((selectFromTable historical_inflation (cy - (years : Int)) cy).map
            Prod.snd)) ∧
    (get_sample_stock_data 5 2024).dates =
      [2018, 2019, 2020, 2021, 2022, 2023, 2024] ∧
    (get_sample_stock_data 5 2024).values =
      roundValues (compoundedValues [31.5, 18.4, 28.7, -18.1, 26.3, 24.2]) := by
  refine ⟨?_, ?_, ?_, ?_, rfl, rfl⟩
  · intro years cy y r
    exact mem_selectFromTable
  · intro years cy y r
    exact mem_selectFromTable
  · intro years cy
    exact ⟨selectFromTable_fst_pairwise _ _ _, selectFromTable_fst_pairwise _ _ _⟩
  · intro years cy
    exact ⟨rfl, rfl⟩

/-- C7 counterexample: a year with a single observation is not skipped and
raises no error: the aggregator computes its return as if valid, getting 0%
because the first and last observation coincide. -/
theorem single_observation_cex :
    annualAgg [((2020 : Int), (50 : ℚ))] = [(2020, 0)] ∧
    liveStockSeries [((2020 : Int), (50 : ℚ))] ≠ none := by
  constructor
  · show [((2020 : Int), ((50 : ℚ) - 50) / 50 * 100)] = [(2020, 0)]
    norm_num
  · have e : liveStockSeries [((2020 : Int), (50 : ℚ))] =
        some (compoundEngine [2020] [((50 : ℚ) - 50) / 50 * 100]) := rfl
    rw [e]
    simp

/-- C7 as amended: a year with exactly one observation of nonzero value is
neither skipped nor an error: its first and last observations coincide, so the
aggregator emits the annual return 0.0% for it as if it were valid; and a year
with no observations at all is absent from the aggregator output (it forms no
group).  The single-observation case with value 0 is outside this statement:
there the source divides float zero by float zero, which yields NaN rather
than 0.0% (and still neither skips nor raises). -/
theorem single_observation_amended (hist : List (Int × ℚ)) (y : Int) (v : ℚ)
    (hv : v ≠ 0) (h : hist.filter (fun p => p.1 == y) = [(y, v)]) :
    (y, (0 : ℚ)) ∈ annualAgg hist ∧
    (∀ (z : Int) (r : ℚ), hist.filter (fun p => p.1 == z) = [] →
      (z, r) ∉ annualAgg hist) := by
  constructor
  · have hy : y ∈ groupYears hist := by
      have hm : (y, v) ∈ hist.filter (fun p => p.1 == y) := by
        rw [h]
        simp
      have ha2 := List.mem_filter.mp hm
      have hfst : y ∈ hist.map Prod.fst :=
        List.mem_map.mpr ⟨(y, v), ha2.1, rfl⟩
      unfold groupYears
      rw [List.mem_insertionSort, List.mem_dedup]
      exact hfst
    refine List.mem_filterMap.mpr ⟨y, hy, ?_⟩
    simp only [h]
    show (match [(y, v)].head?, [(y, v)].getLast? with
      | some f, some l => some (y, (l.2 - f.2) / f.2 * 100)
      | _, _ => none) = some (y, (0 : ℚ))
    simp [sub_self, zero_div]
  · intro z r hz hmem
    obtain ⟨y2, hy2, hF⟩ := List.mem_filterMap.mp hmem
    rcases hh1 : (hist.filter (fun p => p.1 == y2)).head? with _ | f
    · simp only [hh1] at hF
      exact absurd hF (by simp)
    · rcases hh2 : (hist.filter (fun p => p.1 == y2)).getLast? with _ | l
      · simp only [hh1, hh2] at hF
        exact absurd hF (by simp)
      · simp only [hh1, hh2] at hF
        injection hF with hp
        injection hp with hp1 hp2
        subst hp1
        have hfst : y2 ∈ hist.map Prod.fst := by
          have hmem2 := hy2
          unfold groupYears at hmem2
          rw [List.mem_insertionSort, List.mem_dedup] at hmem2
          exact hmem2
        obtain ⟨p, hp3, hp4⟩ := List.mem_map.mp hfst
        have hpf : p ∈ hist.filter (fun q => q.1 == y2) :=
          List.mem_filter.mpr ⟨hp3, by simp [hp4]⟩
        rw [hz] at hpf
        exact absurd hpf (List.not_mem_nil p)

/-- Witness for C7 as amended: a single 2020 observation of value 50
contributes (2020, 0%) to the aggregate, while the observation-free year 2019
gets no entry. -/
theorem single_observation_amended_witness :
    ((2020 : Int), (0 : ℚ)) ∈ annualAgg [((2020 : Int), (50 : ℚ))] ∧
    ((2019 : Int), (0 : ℚ)) ∉ annualAgg [((2020 : Int), (50 : ℚ))] := by
  have h := single_observation_amended [((2020 : Int), (50 : ℚ))] 2020 50
    (by norm_num) rfl
  exact ⟨h.1, h.2 2019 0 rfl⟩

/-- C9: the annual inflation rate for a year is the year-over-year change of
annual mean CPI, `(mean_curr - mean_prev) / mean_prev * 100`, each mean being
the average of the observations of that year, and the inflation fetch window asks
for one extra year (365 days) of lookback beyond the stock fetch window for
the same horizon. -/
theorem yoy_formula_and_lookback (cpi : List (Int × ℚ)) (years : ℕ) (i : ℕ)
    (hi : i + 1 < (annualMeans cpi).length)
    (h2 : i < (yoyRates (annualMeans cpi)).length) :
    (yoyRates (annualMeans cpi)).get ⟨i, h2⟩ =
      (((annualMeans cpi).get ⟨i + 1, hi⟩).1,
        (((annualMeans cpi).get ⟨i + 1, hi⟩).2 -
            ((annualMeans cpi).get ⟨i, Nat.lt_of_succ_lt hi⟩).2) /
          ((annualMeans cpi).get ⟨i, Nat.lt_of_succ_lt hi⟩).2 * 100) ∧
    (∀ j (hj : j < (annualMeans cpi).length),
      ((annualMeans cpi).get ⟨j, hj⟩).2 =
        ((cpi.filter (fun p => p.1 == ((annualMeans cpi).get ⟨j, hj⟩).1)).map
            Prod.snd).sum /
          (((cpi.filter (fun p => p.1 == ((annualMeans cpi).get ⟨j, hj⟩).1)).map
            Prod.snd).length : ℚ)) ∧
    inflationFetchWindowDays years = stockFetchWindowDays years + 365 := by
  refine ⟨yoyRates_get _ i hi h2, ?_, rfl⟩
  intro j hj
  simp only [annualMeans, List.get_eq_getElem, List.getElem_map]

/-- Witness for C9 with means 200 (year 2000) and 210 (year 2001): the 2001
rate is (210 - 200)/200*100 = 5%. -/
theorem yoy_formula_and_lookback_witness :
    (yoyRates (annualMeans [((2000 : Int), (200 : ℚ)), (2001, 210)])).get
        ⟨0, by decide⟩ = (2001, 5) ∧
    inflationFetchWindowDays 20 = stockFetchWindowDays 20 + 365 := by
  have h := yoy_formula_and_lookback [((2000 : Int), (200 : ℚ)), (2001, 210)]
    20 0 (by decide) (by decide)
  refine ⟨?_, h.2.2⟩
  rw [h.1, Prod.mk.injEq]
  refine ⟨rfl, ?_⟩
  show (((210 : ℚ) + 0) / ((1 : ℕ) : ℚ) - ((200 : ℚ) + 0) / ((1 : ℕ) : ℚ)) /
      (((200 : ℚ) + 0) / ((1 : ℕ) : ℚ)) * 100 = 5
  norm_num

/-- C10: with no FRED credential configured the inflation facade returns the
static-table fallback directly; the result does not depend on any fetched
data, so no LIVE fetch is consulted. -/
theorem no_credential_direct_fallback (fetched fetched2 : Option (List (Int × ℚ)))
    (years : ℕ) (cy : Int) :
    get_inflation_data_from_fred false fetched years cy =
      get_fallback_inflation_data years cy ∧
    get_inflation_data false fetched years cy =
      get_inflation_data false fetched2 years cy ∧
    get_inflation_data false fetched years cy =
      get_fallback_inflation_data years cy :=
  ⟨rfl, rfl, rfl⟩

end FinSim
